import Mathlib

/-!
Shallow embedding of `crates/ibc/src/core/ics04_channel/handler/chan_open_confirm.rs`
(the OPEN_CONFIRM step of the ICS4 channel handshake), together with the data
model it operates on.  Pure functions of the Rust source become Lean functions;
the mutable `ExecutionContext` becomes an explicit state record threaded through
the handler; fallible calls return `Except`.  Helper types and methods that live
outside the provided source file (identifiers, `ChannelEnd` methods, the
context traits) are modelled from the specification and marked as such.
-/

namespace IBC

/-- Modelled from the spec: identifiers are opaque validated strings; identifier
syntax validation is out of scope. -/
abbrev PortId := String

/-- Modelled from the spec: channel identifier. -/
abbrev ChannelId := String

/-- Modelled from the spec: connection identifier. -/
abbrev ConnectionId := String

/-- Modelled from the spec: client identifier. -/
abbrev ClientId := String

/-- Modelled from the spec: a message signer, opaque to the channel core. -/
abbrev Signer := String

/-- Modelled from the spec: negotiated application version string. -/
abbrev Version := String

/-- Modelled from the spec: an application-module event, relayed verbatim. -/
abbrev ModuleEventData := String

/-- Modelled from the spec: a commitment root captured at a counterparty height. -/
abbrev CommitmentRootBytes := String

/-- Modelled from the spec: an opaque commitment-proof byte string from the wire. -/
abbrev ProofBytes := String

/-- Modelled from the spec: the counterparty's commitment-store key namespace. -/
abbrev StoreKeyBytes := String

/-- Modelled from the spec: a counterparty height (revision number and height). -/
structure Height where
  revision_number : Nat
  revision_height : Nat
deriving DecidableEq, Repr

/-- Channel lifecycle states (ics04_channel::channel::State). -/
inductive ChannelState where
  | Uninitialized
  | Init
  | TryOpen
  | Open
  | Closed
deriving DecidableEq, Repr

/-- Modelled from the spec: display form of a channel state, carried in
state-mismatch errors for diagnostics. -/
def ChannelState.as_str : ChannelState → String
  | .Uninitialized => "UNINITIALIZED"
  | .Init => "INIT"
  | .TryOpen => "TRYOPEN"
  | .Open => "OPEN"
  | .Closed => "CLOSED"

/-- Channel ordering (ics04_channel::channel::Order). -/
inductive Order where
  | NoneOrder
  | Unordered
  | Ordered
deriving DecidableEq, Repr

/-- Modelled from the spec: display form of an ordering. -/
def Order.as_str : Order → String
  | .NoneOrder => "ORDER_NONE_UNSPECIFIED"
  | .Unordered => "ORDER_UNORDERED"
  | .Ordered => "ORDER_ORDERED"

/-- Channel counterparty: port identifier plus optional channel identifier
(ics04_channel::channel::Counterparty). -/
structure Counterparty where
  port_id : PortId
  channel_id : Option ChannelId
deriving DecidableEq, Repr

/-- Constructor mirroring `Counterparty::new`. -/
def Counterparty.new (port_id : PortId) (channel_id : Option ChannelId) : Counterparty :=
  ⟨port_id, channel_id⟩

/-- Connection lifecycle states (ics03_connection::connection::State). -/
inductive ConnectionState where
  | Uninitialized
  | Init
  | TryOpen
  | Open
deriving DecidableEq, Repr

/-- Modelled from the spec: display form of a connection state. -/
def ConnectionState.as_str : ConnectionState → String
  | .Uninitialized => "UNINITIALIZED"
  | .Init => "INIT"
  | .TryOpen => "TRYOPEN"
  | .Open => "OPEN"

/-- Light-client status (`Active`, `Frozen`, `Expired`), per the spec's
light-client capability. -/
inductive Status where
  | Active
  | Frozen
  | Expired
deriving DecidableEq, Repr

/-- Modelled from the spec: `status().is_active()`. -/
def Status.is_active : Status → Bool
  | .Active => true
  | _ => false

/-- Client-layer errors surfaced by the light-client capability
(ics02_client::error::ClientError); only the kinds reachable from the
OPEN_CONFIRM step are enumerated, with `Other` standing for the remaining,
impl-specific kinds. -/
inductive ClientError where
  | ClientNotActive (status : Status)
  | ClientStateNotFound (client_id : ClientId)
  | ConsensusStateNotFound (client_id : ClientId) (height : Height)
  | Other (description : String)
deriving DecidableEq, Repr

/-- Channel-layer errors (ics04_channel::error::ChannelError); only the kinds
reachable from the OPEN_CONFIRM step are enumerated. -/
inductive ChannelError where
  | ChannelNotFound (port_id : PortId) (channel_id : ChannelId)
  | InvalidState (expected : String) (actual : String)
  | InvalidConnectionHopsLength (expected : Nat) (actual : Nat)
  | MissingCounterparty
  | UndefinedConnectionCounterparty (connection_id : ConnectionId)
  | VerifyChannelFailed (client_error : ClientError)
  | Other (description : String)
deriving DecidableEq, Repr

/-- Connection-layer errors reachable from the OPEN_CONFIRM step. -/
inductive ConnectionError where
  | ConnectionNotFound (connection_id : ConnectionId)
  | InvalidState (expected : String) (actual : String)
  | Other (description : String)
deriving DecidableEq, Repr

/-- The umbrella error type returned by context calls and the handlers
(core::ContextError). -/
inductive ContextError where
  | ClientError (e : ClientError)
  | ConnectionError (e : ConnectionError)
  | ChannelError (e : ChannelError)
deriving DecidableEq, Repr

/-- One endpoint of a logical channel (ics04_channel::channel::ChannelEnd). -/
structure ChannelEnd where
  state : ChannelState
  ordering : Order
  remote : Counterparty
  connection_hops : List ConnectionId
  version : Version
deriving DecidableEq, Repr

/-- Accessor mirroring `ChannelEnd::counterparty`. -/
def ChannelEnd.counterparty (ce : ChannelEnd) : Counterparty := ce.remote

/-- Modelled from the spec: `ChannelEnd::set_state` mutates the lifecycle state
in place and nothing else ("mutated in place by ACK/CONFIRM execute steps
(state transitions only)"). -/
def ChannelEnd.set_state (ce : ChannelEnd) (s : ChannelState) : ChannelEnd :=
  { ce with state := s }

/-- Modelled from the spec: `ChannelEnd::verify_state_matches` fails with a
state-mismatch error carrying the observed state when the channel end is not
in the required state. -/
def ChannelEnd.verify_state_matches (ce : ChannelEnd) (expected : ChannelState) :
    Except ChannelError Unit :=
  if ce.state = expected then .ok ()
  else .error (.InvalidState expected.as_str ce.state.as_str)

/-- Modelled from the spec: `ChannelEnd::verify_connection_hops_length` checks
that `connection_hops` has exactly one entry. -/
def ChannelEnd.verify_connection_hops_length (ce : ChannelEnd) :
    Except ChannelError Unit :=
  if ce.connection_hops.length = 1 then .ok ()
  else .error (.InvalidConnectionHopsLength 1 ce.connection_hops.length)

/-- Modelled from the spec: `ChannelEnd::new` assembles a channel end from its
five fields; the spec names no failure condition for assembly itself, so the
fallible Rust constructor is modelled as always returning `Ok`. -/
def ChannelEnd.new (state : ChannelState) (ordering : Order) (remote : Counterparty)
    (connection_hops : List ConnectionId) (version : Version) :
    Except ChannelError ChannelEnd :=
  .ok ⟨state, ordering, remote, connection_hops, version⟩

/-- Modelled from the spec: wire serialization (`encode_vec`) is out of scope;
it is modelled as a field-by-field serialization of the channel end. -/
def ChannelEnd.encode_vec (ce : ChannelEnd) : List String :=
  [ce.state.as_str, ce.ordering.as_str, ce.remote.port_id,
   (ce.remote.channel_id).getD ""] ++ ce.connection_hops ++ [ce.version]

/-- Connection counterparty: client id, optional connection id, and the
counterparty's commitment-store key namespace
(ics03_connection::connection::Counterparty; the Rust field for the namespace
is its commitment store key prefix). -/
structure ConnectionCounterparty where
  client_id : ClientId
  connection_id : Option ConnectionId
  prefix_bytes : StoreKeyBytes
deriving DecidableEq, Repr

/-- Read-only dependency of the channel handshake
(ics03_connection::connection::ConnectionEnd); versions and delay period are
unused by the OPEN_CONFIRM step and omitted. -/
structure ConnectionEnd where
  state : ConnectionState
  client_id : ClientId
  counterparty : ConnectionCounterparty
deriving DecidableEq, Repr

/-- Modelled from the spec: `ConnectionEnd::verify_state_matches` fails with a
state-mismatch error when the connection is not in the required state. -/
def ConnectionEnd.verify_state_matches (conn : ConnectionEnd)
    (expected : ConnectionState) : Except ConnectionError Unit :=
  if conn.state = expected then .ok ()
  else .error (.InvalidState expected.as_str conn.state.as_str)

/-- Typed key of a channel end in the store (ics24_host::path::ChannelEndPath). -/
structure ChannelEndPath where
  port_id : PortId
  channel_id : ChannelId
deriving DecidableEq, Repr

/-- Constructor mirroring `ChannelEndPath::new`. -/
def ChannelEndPath.new (port_id : PortId) (channel_id : ChannelId) : ChannelEndPath :=
  ⟨port_id, channel_id⟩

/-- Typed key of a client consensus state
(ics24_host::path::ClientConsensusStatePath). -/
structure ClientConsensusStatePath where
  client_id : ClientId
  height : Height
deriving DecidableEq, Repr

/-- Constructor mirroring `ClientConsensusStatePath::new`. -/
def ClientConsensusStatePath.new (client_id : ClientId) (height : Height) :
    ClientConsensusStatePath :=
  ⟨client_id, height⟩

/-- Typed, serializable store key used as a proof-verification target
(ics24_host::path::Path); only the variant used by this handler is modelled. -/
inductive Path where
  | ChannelEnd (p : ChannelEndPath)
deriving DecidableEq, Repr

/-- A commitment root captured at a specific counterparty height
(the `ConsensusState` capability; only `root()` is consumed here). -/
structure ConsensusState where
  root : CommitmentRootBytes

/-- Modelled from the spec: the light-client capability consumed, not owned, by
the channel core: status check, proof-height validation, membership proof
check.  The concrete consensus algorithm is opaque, so the three operations
are fields of the capability record. -/
structure ClientState where
  status : ClientId → Except ClientError Status
  validate_proof_height : Height → Except ClientError Unit
  verify_membership : StoreKeyBytes → ProofBytes → CommitmentRootBytes → Path →
    List String → Except ClientError Unit

/-- Routing-level message-event categories (core::events::MessageEvent). -/
inductive MessageEvent where
  | Client
  | Connection
  | Channel
  | Packet
deriving DecidableEq, Repr

/-- The OPEN_CONFIRM domain event (ics04_channel::events::OpenConfirm): local
port and channel, counterparty port and channel, and the connection id. -/
structure OpenConfirm where
  port_id : PortId
  channel_id : ChannelId
  counterparty_port_id : PortId
  counterparty_channel_id : ChannelId
  connection_id : ConnectionId
deriving DecidableEq, Repr

/-- Constructor mirroring `OpenConfirm::new`. -/
def OpenConfirm.new (port_id : PortId) (channel_id : ChannelId)
    (counterparty_port_id : PortId) (counterparty_channel_id : ChannelId)
    (connection_id : ConnectionId) : OpenConfirm :=
  ⟨port_id, channel_id, counterparty_port_id, counterparty_channel_id, connection_id⟩

/-- Protocol events (core::events::IbcEvent); only the variants emitted by the
OPEN_CONFIRM step are modelled. -/
inductive IbcEvent where
  | Message (m : MessageEvent)
  | OpenConfirmChannel (e : OpenConfirm)
  | Module (e : ModuleEventData)
deriving DecidableEq, Repr

/-- The bundle of application events and log lines a module execute hook
returns on success (router::ModuleExtras). -/
structure ModuleExtras where
  events : List ModuleEventData
  log : List String

/-- Modelled from the spec: the application-module capability; only the two
OPEN_CONFIRM hooks of the hook set are consumed by this handler. -/
structure Module where
  on_chan_open_confirm_validate : PortId → ChannelId → Except ChannelError Unit
  on_chan_open_confirm_execute : PortId → ChannelId → Except ChannelError ModuleExtras

/-- The message driving the OPEN_CONFIRM step
(ics04_channel::msgs::chan_open_confirm::MsgChannelOpenConfirm). -/
structure MsgChannelOpenConfirm where
  port_id_on_b : PortId
  chan_id_on_b : ChannelId
  proof_chan_end_on_a : ProofBytes
  proof_height_on_a : Height
  signer : Signer

/-- Modelled from the spec: the caller-supplied context.  The read surface
(validation context) resolves typed paths in the backing store and checks the
message signer; the write surface (execution context) additionally stores a
channel end, emits events, and logs.  The store is a partial map from typed
paths; events and logs are append-only, insertion-ordered sequences.  A store
write either persists the value and succeeds, or fails (impl-specific) leaving
the store unchanged; `store_channel_ok` is the oracle deciding which. -/
structure Ctx where
  validate_message_signer : Signer → Except ContextError Unit
  channels : ChannelEndPath → Option ChannelEnd
  connections : ConnectionId → Option ConnectionEnd
  client_states : ClientId → Option ClientState
  consensus_states : ClientConsensusStatePath → Option ConsensusState
  store_channel_ok : ChannelEndPath → ChannelEnd → Bool
  events : List IbcEvent
  logs : List String

/-- Read of a channel end by typed path (`ValidationContext::channel_end`);
fails with a lookup error when the path is absent. -/
def Ctx.channel_end (ctx : Ctx) (path : ChannelEndPath) :
    Except ContextError ChannelEnd :=
  match ctx.channels path with
  | some ce => .ok ce
  | none => .error (.ChannelError (.ChannelNotFound path.port_id path.channel_id))

/-- Read of a connection end (`ValidationContext::connection_end`). -/
def Ctx.connection_end (ctx : Ctx) (conn_id : ConnectionId) :
    Except ContextError ConnectionEnd :=
  match ctx.connections conn_id with
  | some conn => .ok conn
  | none => .error (.ConnectionError (.ConnectionNotFound conn_id))

/-- Read of a client state (`ValidationContext::client_state`). -/
def Ctx.client_state (ctx : Ctx) (client_id : ClientId) :
    Except ContextError ClientState :=
  match ctx.client_states client_id with
  | some cs => .ok cs
  | none => .error (.ClientError (.ClientStateNotFound client_id))

/-- Read of a consensus state (`ValidationContext::consensus_state`). -/
def Ctx.consensus_state (ctx : Ctx) (path : ClientConsensusStatePath) :
    Except ContextError ConsensusState :=
  match ctx.consensus_states path with
  | some cs => .ok cs
  | none => .error (.ClientError (.ConsensusStateNotFound path.client_id path.height))

/-- Store write of a channel end (`ExecutionContext::store_channel`): persists
the value at the path on success; on an impl-specific failure the store is
unchanged. -/
def Ctx.store_channel (ctx : Ctx) (path : ChannelEndPath) (ce : ChannelEnd) :
    Except ContextError Unit × Ctx :=
  if ctx.store_channel_ok path ce then
    (.ok (), { ctx with channels := fun p => if p = path then some ce else ctx.channels p })
  else
    (.error (.ChannelError (.Other "store_channel failed")), ctx)

/-- Event emission (`ExecutionContext::emit_ibc_event`): appends one event. -/
def Ctx.emit_ibc_event (ctx : Ctx) (e : IbcEvent) : Ctx :=
  { ctx with events := ctx.events ++ [e] }

/-- Log emission (`ExecutionContext::log_message`): appends one log line. -/
def Ctx.log_message (ctx : Ctx) (m : String) : Ctx :=
  { ctx with logs := ctx.logs ++ [m] }

/-- Outcome of a handler invocation: normal success, a returned error, or a
Rust panic (used to model the unguarded `connection_hops[0]` index). -/
inductive Outcome (ε α : Type) where
  | ok (a : α)
  | err (e : ε)
  | panicked (msg : String)
deriving DecidableEq, Repr

/-- The private `validate` helper of chan_open_confirm.rs (lines 97-169),
translated step for step; the context is threaded explicitly (the Rust
function holds it behind an immutable reference). -/
def validate (ctx_b : Ctx) (msg : MsgChannelOpenConfirm) :
    Except ContextError Unit × Ctx :=
  match ctx_b.validate_message_signer msg.signer with
  | .error e => (.error e, ctx_b)
  | .ok _ =>
    let chan_end_path_on_b := ChannelEndPath.new msg.port_id_on_b msg.chan_id_on_b
    match ctx_b.channel_end chan_end_path_on_b with
    | .error e => (.error e, ctx_b)
    | .ok chan_end_on_b =>
      match chan_end_on_b.verify_state_matches ChannelState.TryOpen with
      | .error e => (.error (.ChannelError e), ctx_b)
      | .ok _ =>
        match chan_end_on_b.verify_connection_hops_length with
        | .error e => (.error (.ChannelError e), ctx_b)
        | .ok _ =>
          match ctx_b.connection_end (chan_end_on_b.connection_hops.headD "") with
          | .error e => (.error e, ctx_b)
          | .ok conn_end_on_b =>
            match conn_end_on_b.verify_state_matches ConnectionState.Open with
            | .error e => (.error (.ConnectionError e), ctx_b)
            | .ok _ =>
              let client_id_on_b := conn_end_on_b.client_id
              match ctx_b.client_state client_id_on_b with
              | .error e => (.error e, ctx_b)
              | .ok client_state_of_a_on_b =>
                match client_state_of_a_on_b.status client_id_on_b with
                | .error e => (.error (.ClientError e), ctx_b)
                | .ok st =>
                  if !st.is_active then
                    (.error (.ClientError (.ClientNotActive st)), ctx_b)
                  else
                    match client_state_of_a_on_b.validate_proof_height msg.proof_height_on_a with
                    | .error e => (.error (.ClientError e), ctx_b)
                    | .ok _ =>
                      let client_cons_state_path_on_b :=
                        ClientConsensusStatePath.new client_id_on_b msg.proof_height_on_a
                      match ctx_b.consensus_state client_cons_state_path_on_b with
                      | .error e => (.error e, ctx_b)
                      | .ok consensus_state_of_a_on_b =>
                        let prefix_on_a := conn_end_on_b.counterparty.prefix_bytes
                        let port_id_on_a := chan_end_on_b.counterparty.port_id
                        match chan_end_on_b.counterparty.channel_id with
                        | none => (.error (.ChannelError .MissingCounterparty), ctx_b)
                        | some chan_id_on_a =>
                          match conn_end_on_b.counterparty.connection_id with
                          | none =>
                            (.error (.ChannelError (.UndefinedConnectionCounterparty
                              (chan_end_on_b.connection_hops.headD ""))), ctx_b)
                          | some conn_id_on_a =>
                            match ChannelEnd.new ChannelState.Open chan_end_on_b.ordering
                                (Counterparty.new msg.port_id_on_b (some msg.chan_id_on_b))
                                [conn_id_on_a] chan_end_on_b.version with
                            | .error e => (.error (.ChannelError e), ctx_b)
                            | .ok expected_chan_end_on_a =>
                              let chan_end_path_on_a := ChannelEndPath.new port_id_on_a chan_id_on_a
                              match client_state_of_a_on_b.verify_membership prefix_on_a
                                  msg.proof_chan_end_on_a consensus_state_of_a_on_b.root
                                  (Path.ChannelEnd chan_end_path_on_a)
                                  expected_chan_end_on_a.encode_vec with
                              | .error e => (.error (.ChannelError (.VerifyChannelFailed e)), ctx_b)
                              | .ok _ => (.ok (), ctx_b)

/-- The `chan_open_confirm_validate` entry point (lines 21-34): runs the
`validate` helper, then the module validate hook. -/
def chan_open_confirm_validate (ctx_b : Ctx) (module : Module)
    (msg : MsgChannelOpenConfirm) : Except ContextError Unit × Ctx :=
  match validate ctx_b msg with
  | (.error e, ctx_b) => (.error e, ctx_b)
  | (.ok _, ctx_b) =>
    match module.on_chan_open_confirm_validate msg.port_id_on_b msg.chan_id_on_b with
    | .error e => (.error (.ChannelError e), ctx_b)
    | .ok _ => (.ok (), ctx_b)

/-- The `chan_open_confirm_execute` entry point (lines 36-95), translated step
for step: module execute hook, channel-end load, store write of the
Open-state channel end, then log and event emission.  The unguarded Rust
index `connection_hops[0]` (line 63) is modelled by the `panicked` outcome
when the hops list is empty. -/
def chan_open_confirm_execute (ctx_b : Ctx) (module : Module)
    (msg : MsgChannelOpenConfirm) : Outcome ContextError Unit × Ctx :=
  match module.on_chan_open_confirm_execute msg.port_id_on_b msg.chan_id_on_b with
  | .error e => (.err (.ChannelError e), ctx_b)
  | .ok extras =>
    let chan_end_path_on_b := ChannelEndPath.new msg.port_id_on_b msg.chan_id_on_b
    match ctx_b.channel_end chan_end_path_on_b with
    | .error e => (.err e, ctx_b)
    | .ok chan_end_on_b =>
      let new_chan_end_on_b := chan_end_on_b.set_state ChannelState.Open
      match ctx_b.store_channel chan_end_path_on_b new_chan_end_on_b with
      | (.error e, ctx_b) => (.err e, ctx_b)
      | (.ok _, ctx_b) =>
        let ctx_b := ctx_b.log_message "success: channel open confirm"
        match chan_end_on_b.connection_hops with
        | [] => (.panicked "index out of bounds: connection_hops[0]", ctx_b)
        | conn_id_on_b :: _ =>
          let port_id_on_a := chan_end_on_b.counterparty.port_id
          match chan_end_on_b.counterparty.channel_id with
          | none =>
            (.err (.ChannelError (.Other
              "internal error: ChannelEnd doesn't have a counterparty channel id in OpenConfirm")),
             ctx_b)
          | some chan_id_on_a =>
            let core_event := IbcEvent.OpenConfirmChannel (OpenConfirm.new
              msg.port_id_on_b msg.chan_id_on_b port_id_on_a chan_id_on_a conn_id_on_b)
            let ctx_b := ctx_b.emit_ibc_event (IbcEvent.Message MessageEvent.Channel)
            let ctx_b := ctx_b.emit_ibc_event core_event
            let ctx_b := extras.events.foldl
              (fun c e => c.emit_ibc_event (IbcEvent.Module e)) ctx_b
            let ctx_b := extras.log.foldl (fun c l => c.log_message l) ctx_b
            (.ok (), ctx_b)

/-! Helper lemmas about the event/log folds of the execute step. -/

/-- Folding module events through `emit_ibc_event` appends them, wrapped, in
their original order. -/
theorem emit_fold_events (l : List ModuleEventData) (c : Ctx) :
    (l.foldl (fun c e => c.emit_ibc_event (IbcEvent.Module e)) c).events
      = c.events ++ l.map IbcEvent.Module := by
  induction l generalizing c with
  | nil => simp
  | cons x xs ih =>
    rw [List.foldl_cons, ih]
    simp [Ctx.emit_ibc_event]

/-- Folding module events through `emit_ibc_event` does not touch the store. -/
theorem emit_fold_channels (l : List ModuleEventData) (c : Ctx) :
    (l.foldl (fun c e => c.emit_ibc_event (IbcEvent.Module e)) c).channels
      = c.channels := by
  induction l generalizing c with
  | nil => rfl
  | cons x xs ih =>
    rw [List.foldl_cons, ih]
    rfl

/-- Folding module log lines through `log_message` does not touch the events. -/
theorem log_fold_events (l : List String) (c : Ctx) :
    (l.foldl (fun c m => c.log_message m) c).events = c.events := by
  induction l generalizing c with
  | nil => rfl
  | cons x xs ih =>
    rw [List.foldl_cons, ih]
    rfl

/-- Folding module log lines through `log_message` does not touch the store. -/
theorem log_fold_channels (l : List String) (c : Ctx) :
    (l.foldl (fun c m => c.log_message m) c).channels = c.channels := by
  induction l generalizing c with
  | nil => rfl
  | cons x xs ih =>
    rw [List.foldl_cons, ih]
    rfl

/-- The `validate` helper returns the context it was given: it is a pure
read-only computation. -/
theorem validate_preserves_ctx (ctx_b : Ctx) (msg : MsgChannelOpenConfirm) :
    (validate ctx_b msg).2 = ctx_b := by
  unfold validate
  dsimp only
  repeat' split <;> try rfl

/-! Concrete fixtures, mirroring the test fixture of chan_open_confirm.rs:
a TryOpen channel on `(defaultPort, channel-0)` over connection
`connection-2`, an Open connection whose client is active, and a module whose
hooks succeed. -/

/-- The OPEN_CONFIRM message of the fixture. -/
def fixtureMsg : MsgChannelOpenConfirm :=
  { port_id_on_b := "defaultPort"
    chan_id_on_b := "channel-0"
    proof_chan_end_on_a := "proof"
    proof_height_on_a := ⟨0, 10⟩
    signer := "signer" }

/-- A light client whose status is Active and whose checks all pass. -/
def fixtureClientState : ClientState :=
  { status := fun _ => .ok Status.Active
    validate_proof_height := fun _ => .ok ()
    verify_membership := fun _ _ _ _ _ => .ok () }

/-- A light client whose status is Frozen. -/
def frozenClientState : ClientState :=
  { status := fun _ => .ok Status.Frozen
    validate_proof_height := fun _ => .ok ()
    verify_membership := fun _ _ _ _ _ => .ok () }

/-- A light client whose membership check fails. -/
def badProofClientState : ClientState :=
  { status := fun _ => .ok Status.Active
    validate_proof_height := fun _ => .ok ()
    verify_membership := fun _ _ _ _ _ => .error (.Other "proof verification failed") }

/-- An Open connection end with a present counterparty connection id. -/
def fixtureConn : ConnectionEnd :=
  { state := ConnectionState.Open
    client_id := "07-mock-45"
    counterparty :=
      { client_id := "client-on-a"
        connection_id := some "connection-0"
        prefix_bytes := "ibc" } }

/-- A TryOpen channel end with a present counterparty channel id. -/
def fixtureChan : ChannelEnd :=
  { state := ChannelState.TryOpen
    ordering := Order.Unordered
    remote := { port_id := "defaultPort", channel_id := some "channel-0" }
    connection_hops := ["connection-2"]
    version := "" }

/-- A stored channel end whose counterparty channel id is unset. -/
def noCpChan : ChannelEnd :=
  { state := ChannelState.TryOpen
    ordering := Order.Unordered
    remote := { port_id := "defaultPort", channel_id := none }
    connection_hops := ["connection-2"]
    version := "" }

/-- A Closed channel end with an empty `connection_hops` list. -/
def closedChanNoHops : ChannelEnd :=
  { state := ChannelState.Closed
    ordering := Order.Unordered
    remote := { port_id := "defaultPort", channel_id := some "channel-0" }
    connection_hops := []
    version := "" }

/-- A channel end with unset counterparty channel id and no connection hops. -/
def noCpChanNoHops : ChannelEnd :=
  { state := ChannelState.TryOpen
    ordering := Order.Unordered
    remote := { port_id := "defaultPort", channel_id := none }
    connection_hops := []
    version := "" }

/-- The base context of the fixture: every lookup succeeds and the store
accepts writes. -/
def fixtureCtx : Ctx :=
  { validate_message_signer := fun _ => .ok ()
    channels := fun _ => some fixtureChan
    connections := fun _ => some fixtureConn
    client_states := fun _ => some fixtureClientState
    consensus_states := fun _ => some { root := "root" }
    store_channel_ok := fun _ _ => true
    events := []
    logs := [] }

/-- The extras bundle returned by the fixture module's execute hook. -/
def fixtureExtras : ModuleExtras :=
  { events := ["moduleEvent1"], log := ["moduleLog1"] }

/-- A module whose OPEN_CONFIRM hooks succeed. -/
def moduleOk : Module :=
  { on_chan_open_confirm_validate := fun _ _ => .ok ()
    on_chan_open_confirm_execute := fun _ _ => .ok fixtureExtras }

/-- A module whose OPEN_CONFIRM hooks reject. -/
def moduleFailing : Module :=
  { on_chan_open_confirm_validate := fun _ _ => .error (.Other "hook rejected")
    on_chan_open_confirm_execute := fun _ _ => .error (.Other "hook rejected") }

/-- Claim C5: `chan_open_confirm_validate` (including the inner `validate`
helper and the module validate hook) performs zero store writes whatever the
outcome: the whole context — store, events and logs included — after the call
equals the context before it. -/
theorem chan_open_confirm_validate_no_writes (ctx_b : Ctx) (module : Module)
    (msg : MsgChannelOpenConfirm) :
    (chan_open_confirm_validate ctx_b module msg).2 = ctx_b
      ∧ (validate ctx_b msg).2 = ctx_b := by
  refine ⟨?_, validate_preserves_ctx ctx_b msg⟩
  unfold chan_open_confirm_validate
  have h := validate_preserves_ctx ctx_b msg
  split
  · rename_i e ctx' heq
    have : ctx' = ctx_b := by rw [← h, heq]
    simp [this]
  · rename_i u ctx' heq
    have : ctx' = ctx_b := by rw [← h, heq]
    split <;> simp [this]

/-- Claim C6: with an acceptable signer, OPEN_CONFIRM `validate` returns the
channel-lookup error when no channel end exists at
`(port_id_on_b, chan_id_on_b)`, and returns a state-mismatch error carrying
the observed state when the channel end exists but its state is not TryOpen
(so in particular Init and Open are rejected). -/
theorem validate_rejects_absent_or_wrong_state (ctx_b : Ctx)
    (msg : MsgChannelOpenConfirm)
    (hs : ctx_b.validate_message_signer msg.signer = .ok ()) :
    (ctx_b.channels (ChannelEndPath.new msg.port_id_on_b msg.chan_id_on_b) = none →
      (validate ctx_b msg).1 = .error (.ChannelError
        (.ChannelNotFound msg.port_id_on_b msg.chan_id_on_b)))
    ∧ (∀ ce : ChannelEnd,
        ctx_b.channels (ChannelEndPath.new msg.port_id_on_b msg.chan_id_on_b) = some ce →
        ce.state ≠ ChannelState.TryOpen →
        (validate ctx_b msg).1 = .error (.ChannelError
          (.InvalidState ChannelState.TryOpen.as_str ce.state.as_str))) := by
  constructor
  · intro hnone
    unfold validate
    simp [hs, Ctx.channel_end, hnone]
    exact ⟨rfl, rfl⟩
  · intro ce hsome hstate
    unfold validate
    simp [hs, Ctx.channel_end, hsome, ChannelEnd.verify_state_matches, hstate]

/-- Witness for C6 at the fixture: an absent channel yields the lookup error;
an Init-state channel yields the TRYOPEN/INIT state-mismatch error. -/
theorem validate_rejects_absent_or_wrong_state_witness :
    (validate { fixtureCtx with channels := fun _ => none } fixtureMsg).1
        = .error (.ChannelError (.ChannelNotFound "defaultPort" "channel-0"))
      ∧ (validate
            { fixtureCtx with
              channels := fun _ => some (fixtureChan.set_state ChannelState.Init) }
            fixtureMsg).1
        = .error (.ChannelError
            (.InvalidState ChannelState.TryOpen.as_str ChannelState.Init.as_str)) := by
  constructor
  · exact (validate_rejects_absent_or_wrong_state _ fixtureMsg rfl).1 rfl
  · exact (validate_rejects_absent_or_wrong_state _ fixtureMsg rfl).2
      (fixtureChan.set_state ChannelState.Init) rfl (by decide)

/-- Claim C7: when every check before the status check passes and the light
client for the connection's client id reports a non-active status, OPEN_CONFIRM
`validate` returns the client-not-active error carrying the observed status. -/
theorem validate_rejects_inactive_client (ctx_b : Ctx) (msg : MsgChannelOpenConfirm)
    (ce : ChannelEnd) (conn : ConnectionEnd) (cs : ClientState)
    (cid : ConnectionId) (st : Status)
    (hs : ctx_b.validate_message_signer msg.signer = .ok ())
    (hc : ctx_b.channels (ChannelEndPath.new msg.port_id_on_b msg.chan_id_on_b) = some ce)
    (hst : ce.state = ChannelState.TryOpen)
    (hhops : ce.connection_hops = [cid])
    (hconn : ctx_b.connections cid = some conn)
    (hcs : conn.state = ConnectionState.Open)
    (hcl : ctx_b.client_states conn.client_id = some cs)
    (hstat : cs.status conn.client_id = .ok st)
    (hact : st.is_active = false) :
    (validate ctx_b msg).1 = .error (.ClientError (.ClientNotActive st)) := by
  unfold validate
  simp [hs, Ctx.channel_end, hc, ChannelEnd.verify_state_matches, hst,
    ChannelEnd.verify_connection_hops_length, hhops, Ctx.connection_end, hconn,
    ConnectionEnd.verify_state_matches, hcs, Ctx.client_state, hcl, hstat, hact]

/-- Witness for C7 at the fixture: a Frozen client makes `validate` fail with
the client-not-active error carrying `Frozen`. -/
theorem validate_rejects_inactive_client_witness :
    (validate { fixtureCtx with client_states := fun _ => some frozenClientState }
        fixtureMsg).1
      = .error (.ClientError (.ClientNotActive Status.Frozen)) :=
  validate_rejects_inactive_client _ fixtureMsg fixtureChan fixtureConn
    frozenClientState "connection-2" Status.Frozen rfl rfl rfl rfl rfl rfl rfl rfl rfl

/-- Claim C4: when every check before proof verification passes, the outcome
of OPEN_CONFIRM `validate` is exactly the outcome of the light client's
`verify_membership` call whose expected counterparty channel end is built as
(state Open, the local ordering, counterparty `(port_id_on_b, chan_id_on_b)`,
the single-hop list holding the local connection's counterparty connection id,
the local version), targeted at the channel-end path (counterparty port,
counterparty channel) under the counterparty's commitment-store namespace. -/
theorem validate_verify_membership_args (ctx_b : Ctx) (msg : MsgChannelOpenConfirm)
    (ce : ChannelEnd) (conn : ConnectionEnd) (cs : ClientState)
    (cid : ConnectionId) (st : Status) (consSt : ConsensusState)
    (chanA : ChannelId) (connA : ConnectionId)
    (hs : ctx_b.validate_message_signer msg.signer = .ok ())
    (hc : ctx_b.channels (ChannelEndPath.new msg.port_id_on_b msg.chan_id_on_b) = some ce)
    (hst : ce.state = ChannelState.TryOpen)
    (hhops : ce.connection_hops = [cid])
    (hconn : ctx_b.connections cid = some conn)
    (hcs : conn.state = ConnectionState.Open)
    (hcl : ctx_b.client_states conn.client_id = some cs)
    (hstat : cs.status conn.client_id = .ok st)
    (hact : st.is_active = true)
    (hph : cs.validate_proof_height msg.proof_height_on_a = .ok ())
    (hcons : ctx_b.consensus_states
        (ClientConsensusStatePath.new conn.client_id msg.proof_height_on_a) = some consSt)
    (hchanA : ce.remote.channel_id = some chanA)
    (hconnA : conn.counterparty.connection_id = some connA) :
    (validate ctx_b msg).1 =
      match cs.verify_membership conn.counterparty.prefix_bytes msg.proof_chan_end_on_a
          consSt.root (Path.ChannelEnd (ChannelEndPath.new ce.remote.port_id chanA))
          (ChannelEnd.encode_vec
            ⟨ChannelState.Open, ce.ordering,
             Counterparty.new msg.port_id_on_b (some msg.chan_id_on_b),
             [connA], ce.version⟩) with
      | .error e => .error (.ChannelError (.VerifyChannelFailed e))
      | .ok _ => .ok () := by
  unfold validate
  simp [hs, Ctx.channel_end, hc, ChannelEnd.verify_state_matches, hst,
    ChannelEnd.verify_connection_hops_length, hhops, Ctx.connection_end, hconn,
    ConnectionEnd.verify_state_matches, hcs, Ctx.client_state, hcl, hstat, hact,
    hph, Ctx.consensus_state, hcons, ChannelEnd.counterparty, hchanA, hconnA,
    ChannelEnd.new]
  split <;> rename_i heq <;> simp [heq]

/-- Witness for C4 at the fixture: with an always-verifying light client,
`validate` succeeds, and the theorem instantiates with the fixture's concrete
expected channel end and path. -/
theorem validate_verify_membership_args_witness :
    (validate fixtureCtx fixtureMsg).1 = .ok () := by
  have h := validate_verify_membership_args fixtureCtx fixtureMsg fixtureChan
    fixtureConn fixtureClientState "connection-2" Status.Active ⟨"root"⟩
    "channel-0" "connection-0" rfl rfl rfl rfl rfl rfl rfl rfl rfl rfl rfl rfl rfl
  simpa using h

/-- Claim C8: when every check before proof verification passes and the light
client's `verify_membership` call fails, OPEN_CONFIRM `validate` returns the
verify-channel-failed error wrapping the underlying light-client error
unchanged. -/
theorem validate_wraps_verification_error (ctx_b : Ctx) (msg : MsgChannelOpenConfirm)
    (ce : ChannelEnd) (conn : ConnectionEnd) (cs : ClientState)
    (cid : ConnectionId) (st : Status) (consSt : ConsensusState)
    (chanA : ChannelId) (connA : ConnectionId) (cerr : ClientError)
    (hs : ctx_b.validate_message_signer msg.signer = .ok ())
    (hc : ctx_b.channels (ChannelEndPath.new msg.port_id_on_b msg.chan_id_on_b) = some ce)
    (hst : ce.state = ChannelState.TryOpen)
    (hhops : ce.connection_hops = [cid])
    (hconn : ctx_b.connections cid = some conn)
    (hcs : conn.state = ConnectionState.Open)
    (hcl : ctx_b.client_states conn.client_id = some cs)
    (hstat : cs.status conn.client_id = .ok st)
    (hact : st.is_active = true)
    (hph : cs.validate_proof_height msg.proof_height_on_a = .ok ())
    (hcons : ctx_b.consensus_states
        (ClientConsensusStatePath.new conn.client_id msg.proof_height_on_a) = some consSt)
    (hchanA : ce.remote.channel_id = some chanA)
    (hconnA : conn.counterparty.connection_id = some connA)
    (hvm : cs.verify_membership conn.counterparty.prefix_bytes msg.proof_chan_end_on_a
        consSt.root (Path.ChannelEnd (ChannelEndPath.new ce.remote.port_id chanA))
        (ChannelEnd.encode_vec
          ⟨ChannelState.Open, ce.ordering,
           Counterparty.new msg.port_id_on_b (some msg.chan_id_on_b),
           [connA], ce.version⟩) = .error cerr) :
    (validate ctx_b msg).1 = .error (.ChannelError (.VerifyChannelFailed cerr)) := by
  unfold validate
  simp [hs, Ctx.channel_end, hc, ChannelEnd.verify_state_matches, hst,
    ChannelEnd.verify_connection_hops_length, hhops, Ctx.connection_end, hconn,
    ConnectionEnd.verify_state_matches, hcs, Ctx.client_state, hcl, hstat, hact,
    hph, Ctx.consensus_state, hcons, ChannelEnd.counterparty, hchanA, hconnA,
    ChannelEnd.new, hvm]

/-- Witness for C8 at the fixture: a light client whose membership check fails
with a concrete error makes `validate` return that error wrapped in
verify-channel-failed. -/
theorem validate_wraps_verification_error_witness :
    (validate { fixtureCtx with client_states := fun _ => some badProofClientState }
        fixtureMsg).1
      = .error (.ChannelError (.VerifyChannelFailed (.Other "proof verification failed"))) :=
  validate_wraps_verification_error _ fixtureMsg fixtureChan fixtureConn
    badProofClientState "connection-2" Status.Active ⟨"root"⟩ "channel-0" "connection-0"
    (.Other "proof verification failed")
    rfl rfl rfl rfl rfl rfl rfl rfl rfl rfl rfl rfl rfl rfl

/-- Claim C2: on a successful `chan_open_confirm_execute`, the event sequence
appended to the context is exactly one routing-level Message(Channel) event,
then one OpenConfirmChannel event carrying (local port, local channel,
counterparty port, counterparty channel, connection id), then every
module-supplied event in the module's order; the appended count is
2 plus the number of module events. -/
theorem execute_success_events (ctx_b : Ctx) (module : Module)
    (msg : MsgChannelOpenConfirm) (extras : ModuleExtras) (ce : ChannelEnd)
    (chanA : ChannelId) (connB : ConnectionId) (rest : List ConnectionId)
    (hm : module.on_chan_open_confirm_execute msg.port_id_on_b msg.chan_id_on_b
      = .ok extras)
    (hc : ctx_b.channels (ChannelEndPath.new msg.port_id_on_b msg.chan_id_on_b) = some ce)
    (hch : ce.remote.channel_id = some chanA)
    (hh : ce.connection_hops = connB :: rest)
    (hw : ctx_b.store_channel_ok (ChannelEndPath.new msg.port_id_on_b msg.chan_id_on_b)
      (ce.set_state ChannelState.Open) = true) :
    (chan_open_confirm_execute ctx_b module msg).1 = .ok ()
    ∧ (chan_open_confirm_execute ctx_b module msg).2.events
        = ctx_b.events
          ++ [IbcEvent.Message MessageEvent.Channel,
              IbcEvent.OpenConfirmChannel (OpenConfirm.new msg.port_id_on_b
                msg.chan_id_on_b ce.remote.port_id chanA connB)]
          ++ extras.events.map IbcEvent.Module
    ∧ (chan_open_confirm_execute ctx_b module msg).2.events.length
        = ctx_b.events.length + (2 + extras.events.length) := by
  unfold chan_open_confirm_execute
  simp only [hm, Ctx.channel_end, hc, Ctx.store_channel, hw, if_true, hh,
    ChannelEnd.counterparty, hch]
  refine ⟨by trivial, ?_, ?_⟩
  · rw [log_fold_events, emit_fold_events]
    simp [Ctx.emit_ibc_event, Ctx.log_message]
  · rw [log_fold_events, emit_fold_events]
    simp [Ctx.emit_ibc_event, Ctx.log_message]
    omega

/-- Witness for C2 at the fixture: execute succeeds and appends exactly the
routing event, the OpenConfirmChannel event, and the single module event. -/
theorem execute_success_events_witness :
    (chan_open_confirm_execute fixtureCtx moduleOk fixtureMsg).1 = .ok ()
    ∧ (chan_open_confirm_execute fixtureCtx moduleOk fixtureMsg).2.events
        = fixtureCtx.events
          ++ [IbcEvent.Message MessageEvent.Channel,
              IbcEvent.OpenConfirmChannel (OpenConfirm.new fixtureMsg.port_id_on_b
                fixtureMsg.chan_id_on_b fixtureChan.remote.port_id "channel-0"
                "connection-2")]
          ++ fixtureExtras.events.map IbcEvent.Module
    ∧ (chan_open_confirm_execute fixtureCtx moduleOk fixtureMsg).2.events.length
        = fixtureCtx.events.length + (2 + fixtureExtras.events.length) :=
  execute_success_events fixtureCtx moduleOk fixtureMsg fixtureExtras fixtureChan
    "channel-0" "connection-2" [] rfl rfl rfl rfl rfl

/-- Claim C3: on a successful `chan_open_confirm_execute`, the channel end
stored back at the same path has state Open and keeps its ordering,
counterparty, connection_hops and version from the pre-execute value; no
other field is modified (the channel end has exactly these five fields). -/
theorem execute_success_stores_open (ctx_b : Ctx) (module : Module)
    (msg : MsgChannelOpenConfirm) (extras : ModuleExtras) (ce : ChannelEnd)
    (chanA : ChannelId) (connB : ConnectionId) (rest : List ConnectionId)
    (hm : module.on_chan_open_confirm_execute msg.port_id_on_b msg.chan_id_on_b
      = .ok extras)
    (hc : ctx_b.channels (ChannelEndPath.new msg.port_id_on_b msg.chan_id_on_b) = some ce)
    (hch : ce.remote.channel_id = some chanA)
    (hh : ce.connection_hops = connB :: rest)
    (hw : ctx_b.store_channel_ok (ChannelEndPath.new msg.port_id_on_b msg.chan_id_on_b)
      (ce.set_state ChannelState.Open) = true) :
    (chan_open_confirm_execute ctx_b module msg).2.channels
        (ChannelEndPath.new msg.port_id_on_b msg.chan_id_on_b)
      = some ⟨ChannelState.Open, ce.ordering, ce.remote, ce.connection_hops,
              ce.version⟩ := by
  unfold chan_open_confirm_execute
  simp only [hm, Ctx.channel_end, hc, Ctx.store_channel, hw, if_true, hh,
    ChannelEnd.counterparty, hch]
  rw [log_fold_channels, emit_fold_channels]
  simp [Ctx.emit_ibc_event, Ctx.log_message, ChannelEnd.set_state, hh]

/-- Witness for C3 at the fixture: the stored channel end is the fixture's
TryOpen channel end with only its state moved to Open. -/
theorem execute_success_stores_open_witness :
    (chan_open_confirm_execute fixtureCtx moduleOk fixtureMsg).2.channels
        (ChannelEndPath.new fixtureMsg.port_id_on_b fixtureMsg.chan_id_on_b)
      = some ⟨ChannelState.Open, fixtureChan.ordering, fixtureChan.remote,
              fixtureChan.connection_hops, fixtureChan.version⟩ :=
  execute_success_stores_open fixtureCtx moduleOk fixtureMsg fixtureExtras
    fixtureChan "channel-0" "connection-2" [] rfl rfl rfl rfl rfl

/-- Counterexample to claim C9 as stated: in an execution context whose stored
channel end has an unset counterparty channel id and an empty
`connection_hops` list (with the module hook and the store write succeeding),
`chan_open_confirm_execute` panics on the unguarded `connection_hops[0]`
index before ever reaching the missing-counterparty check, instead of
returning an error value. -/
theorem execute_missing_counterparty_panics_on_empty_hops :
    (chan_open_confirm_execute { fixtureCtx with channels := fun _ => some noCpChanNoHops }
        moduleOk fixtureMsg).1
      = Outcome.panicked "index out of bounds: connection_hops[0]" := rfl

/-- Claim C9 as amended: for every execution context whose stored channel end
at `(port_id_on_b, chan_id_on_b)` has counterparty.channel_id unset and a
nonempty `connection_hops` list, if the module execute hook and the store
write succeed, `chan_open_confirm_execute` returns the internal-consistency
error value rather than panicking. -/
theorem execute_missing_counterparty_internal_error (ctx_b : Ctx) (module : Module)
    (msg : MsgChannelOpenConfirm) (extras : ModuleExtras) (ce : ChannelEnd)
    (connB : ConnectionId) (rest : List ConnectionId)
    (hm : module.on_chan_open_confirm_execute msg.port_id_on_b msg.chan_id_on_b
      = .ok extras)
    (hc : ctx_b.channels (ChannelEndPath.new msg.port_id_on_b msg.chan_id_on_b) = some ce)
    (hch : ce.remote.channel_id = none)
    (hh : ce.connection_hops = connB :: rest)
    (hw : ctx_b.store_channel_ok (ChannelEndPath.new msg.port_id_on_b msg.chan_id_on_b)
      (ce.set_state ChannelState.Open) = true) :
    (chan_open_confirm_execute ctx_b module msg).1
      = .err (.ChannelError (.Other
          "internal error: ChannelEnd doesn't have a counterparty channel id in OpenConfirm")) := by
  unfold chan_open_confirm_execute
  simp only [hm, Ctx.channel_end, hc, Ctx.store_channel, hw, if_true, hh,
    ChannelEnd.counterparty, hch]

/-- Witness for the amended C9 at the fixture: with the counterparty channel
id unset but one connection hop present, execute returns the internal error. -/
theorem execute_missing_counterparty_internal_error_witness :
    (chan_open_confirm_execute { fixtureCtx with channels := fun _ => some noCpChan }
        moduleOk fixtureMsg).1
      = .err (.ChannelError (.Other
          "internal error: ChannelEnd doesn't have a counterparty channel id in OpenConfirm")) :=
  execute_missing_counterparty_internal_error _ moduleOk fixtureMsg fixtureExtras
    noCpChan "connection-2" [] rfl rfl rfl rfl rfl

/-- Counterexample to claim C10 as stated: two execution contexts satisfying
the claim's premises (stored channel end, successful module hook, set
counterparty channel id) on which execute does not succeed — one whose
channel end has no connection hops (execute panics on the unguarded index),
and one whose store write fails (execute returns the store error). -/
theorem execute_state_free_claim_fails :
    (chan_open_confirm_execute { fixtureCtx with channels := fun _ => some closedChanNoHops }
        moduleOk fixtureMsg).1
      = Outcome.panicked "index out of bounds: connection_hops[0]"
    ∧ (chan_open_confirm_execute { fixtureCtx with store_channel_ok := fun _ _ => false }
        moduleOk fixtureMsg).1
      = Outcome.err (.ChannelError (.Other "store_channel failed")) :=
  ⟨rfl, rfl⟩

/-- Claim C10 as amended: `chan_open_confirm_execute` performs no
channel-state precondition check: for every stored channel end in any state
(Uninitialized, Init, TryOpen, Open or Closed), if the module execute hook
succeeds, the channel end's counterparty.channel_id is set, its
`connection_hops` list is nonempty, and the store write succeeds, then
execute succeeds and stores the channel end back with state Open. -/
theorem execute_no_state_precondition (ctx_b : Ctx) (module : Module)
    (msg : MsgChannelOpenConfirm) (extras : ModuleExtras) (ce : ChannelEnd)
    (chanA : ChannelId) (connB : ConnectionId) (rest : List ConnectionId)
    (hm : module.on_chan_open_confirm_execute msg.port_id_on_b msg.chan_id_on_b
      = .ok extras)
    (hc : ctx_b.channels (ChannelEndPath.new msg.port_id_on_b msg.chan_id_on_b) = some ce)
    (hch : ce.remote.channel_id = some chanA)
    (hh : ce.connection_hops = connB :: rest)
    (hw : ctx_b.store_channel_ok (ChannelEndPath.new msg.port_id_on_b msg.chan_id_on_b)
      (ce.set_state ChannelState.Open) = true) :
    (chan_open_confirm_execute ctx_b module msg).1 = .ok ()
    ∧ (chan_open_confirm_execute ctx_b module msg).2.channels
        (ChannelEndPath.new msg.port_id_on_b msg.chan_id_on_b)
      = some (ce.set_state ChannelState.Open) := by
  unfold chan_open_confirm_execute
  simp only [hm, Ctx.channel_end, hc, Ctx.store_channel, hw, if_true, hh,
    ChannelEnd.counterparty, hch]
  refine ⟨by trivial, ?_⟩
  rw [log_fold_channels, emit_fold_channels]
  simp [Ctx.emit_ibc_event, Ctx.log_message]

/-- Witness for the amended C10 at the fixture with a Closed channel end:
execute still succeeds and stores it back with state Open. -/
theorem execute_no_state_precondition_witness :
    (chan_open_confirm_execute
        { fixtureCtx with channels := fun _ => some (fixtureChan.set_state ChannelState.Closed) }
        moduleOk fixtureMsg).1 = .ok ()
    ∧ (chan_open_confirm_execute
        { fixtureCtx with channels := fun _ => some (fixtureChan.set_state ChannelState.Closed) }
        moduleOk fixtureMsg).2.channels
        (ChannelEndPath.new fixtureMsg.port_id_on_b fixtureMsg.chan_id_on_b)
      = some ((fixtureChan.set_state ChannelState.Closed).set_state ChannelState.Open) :=
  execute_no_state_precondition _ moduleOk fixtureMsg fixtureExtras
    (fixtureChan.set_state ChannelState.Closed) "channel-0" "connection-2" [] rfl rfl rfl rfl rfl

/-- Counterexample to claim C1 as stated: an execution context whose stored
channel end lacks its counterparty channel id — `chan_open_confirm_execute`
returns an error (the internal-consistency error), yet the store has been
mutated: the channel end at the message's path now carries state Open. -/
theorem execute_error_can_leave_store_mutated :
    (chan_open_confirm_execute { fixtureCtx with channels := fun _ => some noCpChan }
        moduleOk fixtureMsg).1
      = Outcome.err (.ChannelError (.Other
          "internal error: ChannelEnd doesn't have a counterparty channel id in OpenConfirm"))
    ∧ (chan_open_confirm_execute { fixtureCtx with channels := fun _ => some noCpChan }
        moduleOk fixtureMsg).2.channels
        (ChannelEndPath.new "defaultPort" "channel-0")
      ≠ ({ fixtureCtx with channels := fun _ => some noCpChan } : Ctx).channels
        (ChannelEndPath.new "defaultPort" "channel-0") :=
  ⟨rfl, by decide⟩

/-- Claim C1 as amended: whenever the error arises from the module execute
hook, the channel-end lookup, or the store write itself — the three error
sources of `chan_open_confirm_execute` that precede or coincide with the
store write, with no assumption on the stored channel end —
`chan_open_confirm_execute` returns an error and the store is unchanged from
its pre-invocation state.  (The remaining error source, the
missing-counterparty-channel-id check, runs after the store write.) -/
theorem execute_error_preserves_store (ctx_b : Ctx) (module : Module)
    (msg : MsgChannelOpenConfirm)
    (hsrc :
      (∃ e0 : ChannelError,
        module.on_chan_open_confirm_execute msg.port_id_on_b msg.chan_id_on_b = .error e0)
      ∨ ctx_b.channels (ChannelEndPath.new msg.port_id_on_b msg.chan_id_on_b) = none
      ∨ (∃ extras : ModuleExtras, ∃ ce : ChannelEnd,
          module.on_chan_open_confirm_execute msg.port_id_on_b msg.chan_id_on_b = .ok extras
          ∧ ctx_b.channels (ChannelEndPath.new msg.port_id_on_b msg.chan_id_on_b) = some ce
          ∧ ctx_b.store_channel_ok (ChannelEndPath.new msg.port_id_on_b msg.chan_id_on_b)
              (ce.set_state ChannelState.Open) = false)) :
    (∃ e : ContextError, (chan_open_confirm_execute ctx_b module msg).1 = .err e)
    ∧ (chan_open_confirm_execute ctx_b module msg).2.channels = ctx_b.channels := by
  unfold chan_open_confirm_execute
  rcases hsrc with ⟨e0, hm⟩ | hc | ⟨extras, ce, hm, hc, hw⟩
  · simp only [hm]
    exact ⟨⟨.ChannelError e0, rfl⟩, trivial⟩
  · cases hm : module.on_chan_open_confirm_execute msg.port_id_on_b msg.chan_id_on_b with
    | error e0 =>
      simp only [hm]
      exact ⟨⟨.ChannelError e0, rfl⟩, trivial⟩
    | ok extras =>
      simp only [hm, Ctx.channel_end, hc]
      exact ⟨⟨.ChannelError (.ChannelNotFound msg.port_id_on_b msg.chan_id_on_b), rfl⟩, trivial⟩
  · simp only [hm, Ctx.channel_end, hc, Ctx.store_channel, hw, Bool.false_eq_true,
      if_false]
    exact ⟨⟨.ChannelError (.Other "store_channel failed"), rfl⟩, trivial⟩

/-- Witness for the amended C1: a rejecting module execute hook leaves the
store untouched, even when the stored channel end at the message's path lacks
its counterparty channel id. -/
theorem execute_error_preserves_store_witness :
    (∃ e : ContextError,
      (chan_open_confirm_execute { fixtureCtx with channels := fun _ => some noCpChan }
        moduleFailing fixtureMsg).1 = .err e)
    ∧ (chan_open_confirm_execute { fixtureCtx with channels := fun _ => some noCpChan }
        moduleFailing fixtureMsg).2.channels
      = ({ fixtureCtx with channels := fun _ => some noCpChan } : Ctx).channels :=
  execute_error_preserves_store _ moduleFailing fixtureMsg
    (Or.inl ⟨.Other "hook rejected", rfl⟩)

end IBC
